import Mathlib

/-!
Shallow embedding of `serial_number_manager/public/js/delivery_note.js`.

The script registers a `validate` handler on the Delivery Note form which
calls `fix_serial_number_count` on every item row.  That function inspects
the row's `item_code`, `qty` and `serial_no` fields and, when the text
field holds fewer serial numbers than the quantity, issues two
`frappe.model.set_value` calls clearing `serial_no` and
`serial_and_batch_bundle` and one `frappe.show_alert` call.

Side effects (the `frappe.model.set_value` and `frappe.show_alert` calls)
are modelled as an explicit list of `Effect` values returned next to the
function's boolean result; `console.log` calls are pure diagnostics and are
not modelled.  JS numbers holding quantities are modelled by `Rat`, and
possibly-absent fields by `Option`.
-/

namespace SerialNumberManager

/-- The ASCII whitespace characters stripped by JavaScript `String.prototype.trim`. -/
def isJsWhitespace (c : Char) : Bool :=
  c = ' ' || c = '\t' || c = '\n' || c = '\r' || c = '\x0b' || c = '\x0c'

/-- JavaScript `s.trim()`: strip leading and trailing whitespace. -/
def jsTrim (s : String) : String :=
  String.mk (((s.toList.dropWhile isJsWhitespace).reverse.dropWhile isJsWhitespace).reverse)

/-- A character matched by the regex `[\n,]` used in `serial_no_field.split(/[\n,]/)`. -/
def isSeparator (c : Char) : Bool := c = '\n' || c = ','

/-- JavaScript `str.split(/[\n,]/)` on the underlying character list:
adjacent separators and separators at either end produce empty pieces,
and the empty string splits to `[""]`. -/
def splitChars : List Char → List (List Char)
  | [] => [[]]
  | c :: cs =>
    if isSeparator c then [] :: splitChars cs
    else
      match splitChars cs with
      | t :: ts => (c :: t) :: ts
      | [] => [[c]]

/-- JavaScript `s.split(/[\n,]/)`. -/
def jsSplit (s : String) : List String := (splitChars s.toList).map String.mk

/-- Frappe's `flt` numeric coercion as applied to `item.qty`: a missing
(`null`/`undefined`) value coerces to `0`, a number is returned unchanged. -/
def flt (v : Option Rat) : Rat := v.getD 0

/-- JavaScript truthiness of a string field: `undefined`, `null` and the
empty string are falsy, every other string is truthy. -/
def truthy (v : Option String) : Bool := !(v.getD "" == "")

/-- A Delivery Note Item row, restricted to the fields the script reads. -/
structure Item where
  doctype : String
  name : String
  item_code : Option String
  qty : Option Rat
  serial_no : Option String
  serial_and_batch_bundle : Option String
deriving DecidableEq

/-- An observable side effect of the script: a `frappe.model.set_value`
call or a `frappe.show_alert` call (the alert's message interpolates the
row's `item_code` and `qty`). -/
inductive Effect where
  | setValue (doctype name fieldname value : String)
  | showAlert (itemCode : String) (qty : Rat)
deriving DecidableEq

/-- The serial numbers entered in the (already trimmed) `serial_no` text:
`serial_no_field.split(/[\n,]/).map(s => s.trim()).filter(s => s.length > 0)`. -/
def serialNumbers (field : String) : List String :=
  ((jsSplit field).map jsTrim).filter (fun s => s.length > 0)

/-- `fix_serial_number_count(item)` from `delivery_note.js`.  Returns the
function's boolean result together with the list of issued side effects,
in the order they are performed. -/
def fix_serial_number_count (item : Item) : Bool × List Effect :=
  if !truthy item.item_code then (false, [])
  else
    let qty := flt item.qty
    if qty ≤ 1 then (false, [])
    else
      let serial_no_field := jsTrim (item.serial_no.getD "")
      if serial_no_field == "" then (false, [])
      else
        let serial_numbers := serialNumbers serial_no_field
        if (serial_numbers.length : Rat) ≥ qty then (false, [])
        else
          (true,
            [ Effect.setValue item.doctype item.name "serial_no" "",
              Effect.setValue item.doctype item.name "serial_and_batch_bundle" "",
              Effect.showAlert (item.item_code.getD "") qty ])

/-- The `validate` handler: if `frm.doc.items` is missing or empty it does
nothing, otherwise it runs `fix_serial_number_count` on every row; the
result is the concatenated list of side effects. -/
def validate (doc_items : Option (List Item)) : List Effect :=
  match doc_items with
  | none => []
  | some items => (items.map (fun item => (fix_serial_number_count item).2)).flatten

/-- The number of serial numbers the script counts in a row's `serial_no`
field (split on newlines and commas, tokens trimmed, empties dropped). -/
def serialCount (item : Item) : Nat :=
  (serialNumbers (jsTrim (item.serial_no.getD ""))).length

/-- The effects emitted when the mismatch branch fires. -/
def clearEffects (item : Item) : List Effect :=
  [ Effect.setValue item.doctype item.name "serial_no" "",
    Effect.setValue item.doctype item.name "serial_and_batch_bundle" "",
    Effect.showAlert (item.item_code.getD "") (flt item.qty) ]

/-- Shared helper: under the four guard conditions the function takes the
mismatch branch, emitting the two clearing writes and the alert. -/
lemma fix_eq_of_mismatch (item : Item)
    (hcode : truthy item.item_code = true)
    (hqty : 1 < flt item.qty)
    (hser : jsTrim (item.serial_no.getD "") ≠ "")
    (hcount : (serialCount item : Rat) < flt item.qty) :
    fix_serial_number_count item = (true, clearEffects item) := by
  unfold fix_serial_number_count
  rw [hcode]
  simp only [Bool.not_true, Bool.false_eq_true, if_false]
  rw [if_neg (not_le.mpr hqty), if_neg (by simpa using hser),
    if_neg (not_le.mpr (by simpa [serialCount] using hcount))]
  rfl

/-- Shared helper: whenever any guard fails, the function returns `false`
and emits no effect at all. -/
lemma fix_eq_false_of_guard (item : Item)
    (h : truthy item.item_code = false ∨ flt item.qty ≤ 1 ∨
      jsTrim (item.serial_no.getD "") = "" ∨ flt item.qty ≤ (serialCount item : Rat)) :
    fix_serial_number_count item = (false, []) := by
  unfold fix_serial_number_count
  rcases h with h | h | h | h
  · rw [h]; rfl
  · by_cases hc : truthy item.item_code
    · rw [hc]; simp only [Bool.not_true, Bool.false_eq_true, if_false]
      rw [if_pos h]
    · rw [eq_false_of_ne_true hc]; rfl
  · by_cases hc : truthy item.item_code
    · rw [hc]; simp only [Bool.not_true, Bool.false_eq_true, if_false]
      by_cases hq : flt item.qty ≤ 1
      · rw [if_pos hq]
      · rw [if_neg hq, if_pos (by simpa using h)]
    · rw [eq_false_of_ne_true hc]; rfl
  · by_cases hc : truthy item.item_code
    · rw [hc]; simp only [Bool.not_true, Bool.false_eq_true, if_false]
      by_cases hq : flt item.qty ≤ 1
      · rw [if_pos hq]
      · rw [if_neg hq]
        by_cases hs : jsTrim (item.serial_no.getD "") == ""
        · rw [if_pos hs]
        · rw [if_neg hs, if_pos (by simpa [serialCount, ge_iff_le] using h)]
    · rw [eq_false_of_ne_true hc]; rfl

example : jsSplit "" = [""] := by decide
example : jsSplit "," = ["", ""] := by decide
example : jsSplit "A,B\nC" = ["A", "B", "C"] := by decide
example : jsTrim "  SN-1 \n" = "SN-1" := by decide
example : serialNumbers "A, A ,A" = ["A", "A", "A"] := by decide
example : serialNumbers "," = [] := by decide

/-- A row with two entered serials but quantity five. -/
def rowUndercount : Item :=
  ⟨"Delivery Note Item", "row-1", some "ITEM-001", some 5, some "SN-1\nSN-2", none⟩

/-- A row with quantity one, whose serial content is irrelevant. -/
def rowQtyOne : Item :=
  ⟨"Delivery Note Item", "row-2", some "ITEM-001", some 1, some "SN-1,SN-2", none⟩

/-- A row with a whitespace-only serial field and a bundle present. -/
def rowBlankSerial : Item :=
  ⟨"Delivery Note Item", "row-3", some "ITEM-001", some 5, some "  \n ", some "SABB-0001"⟩

/-- A row with three entered serials but quantity two. -/
def rowOvercount : Item :=
  ⟨"Delivery Note Item", "row-4", some "ITEM-001", some 2, some "SN-1,SN-2,SN-3", none⟩

/-- C1: a row with an item code, quantity strictly above one, a non-blank
`serial_no` text and strictly fewer entered serials than the quantity is
handled by the mismatch branch: both `serial_no` and
`serial_and_batch_bundle` are set to the empty string and the function
returns `true`. -/
theorem undercount_clears_serial_fields (item : Item)
    (hcode : truthy item.item_code = true)
    (hqty : 1 < flt item.qty)
    (hser : jsTrim (item.serial_no.getD "") ≠ "")
    (hcount : (serialCount item : Rat) < flt item.qty) :
    fix_serial_number_count item =
      (true,
        [ Effect.setValue item.doctype item.name "serial_no" "",
          Effect.setValue item.doctype item.name "serial_and_batch_bundle" "",
          Effect.showAlert (item.item_code.getD "") (flt item.qty) ]) :=
  fix_eq_of_mismatch item hcode hqty hser hcount

theorem undercount_clears_serial_fields_witness :
    truthy rowUndercount.item_code = true ∧ 1 < flt rowUndercount.qty ∧
    jsTrim (rowUndercount.serial_no.getD "") ≠ "" ∧
    (serialCount rowUndercount : Rat) < flt rowUndercount.qty ∧
    fix_serial_number_count rowUndercount =
      (true,
        [ Effect.setValue "Delivery Note Item" "row-1" "serial_no" "",
          Effect.setValue "Delivery Note Item" "row-1" "serial_and_batch_bundle" "",
          Effect.showAlert "ITEM-001" 5 ]) :=
  ⟨by decide, by decide, by decide, by decide,
    undercount_clears_serial_fields rowUndercount (by decide) (by decide)
      (by decide) (by decide)⟩

/-- C6: a row whose quantity coerces (via `flt`) to a value at most one is
left alone: the function returns `false` and performs no effect, whatever
the `serial_no` field holds. -/
theorem qty_le_one_no_op (item : Item) (h : flt item.qty ≤ 1) :
    fix_serial_number_count item = (false, []) :=
  fix_eq_false_of_guard item (Or.inr (Or.inl h))

theorem qty_le_one_no_op_witness :
    flt rowQtyOne.qty ≤ 1 ∧ fix_serial_number_count rowQtyOne = (false, []) :=
  ⟨by decide, qty_le_one_no_op rowQtyOne (by decide)⟩

/-- C7: a row whose `serial_no` field is missing, empty or whitespace-only
is left alone: the function returns `false` and performs no effect, so in
particular `serial_and_batch_bundle` is never touched in that case. -/
theorem blank_serial_no_op (item : Item)
    (h : jsTrim (item.serial_no.getD "") = "") :
    fix_serial_number_count item = (false, []) :=
  fix_eq_false_of_guard item (Or.inr (Or.inr (Or.inl h)))

theorem blank_serial_no_op_witness :
    jsTrim (rowBlankSerial.serial_no.getD "") = "" ∧
    rowBlankSerial.serial_and_batch_bundle = some "SABB-0001" ∧
    fix_serial_number_count rowBlankSerial = (false, []) :=
  ⟨by decide, by decide, blank_serial_no_op rowBlankSerial (by decide)⟩

/-- C8: a row in which at least as many serials are entered as the
quantity — including strictly more — is left alone: the function returns
`false` and clears nothing. -/
theorem enough_serials_no_op (item : Item)
    (h : (serialCount item : Rat) ≥ flt item.qty) :
    fix_serial_number_count item = (false, []) :=
  fix_eq_false_of_guard item (Or.inr (Or.inr (Or.inr h)))

theorem enough_serials_no_op_witness :
    (serialCount rowOvercount : Rat) ≥ flt rowOvercount.qty ∧
    fix_serial_number_count rowOvercount = (false, []) :=
  ⟨by decide, enough_serials_no_op rowOvercount (by decide)⟩

/-- A row with a single entered serial but quantity five. -/
def rowSingleSerial : Item :=
  ⟨"Delivery Note Item", "row-5", some "ITEM-001", some 5, some "SN-001", none⟩

/-- C2 counterexample: on a row with one entered serial and quantity five
the function does clear the fields, although `1 < number_of_entered_serials`
fails; so clearing is not equivalent to `1 < count ∧ count < qty`. -/
theorem single_serial_refutes_count_lower_bound :
    ¬ (((fix_serial_number_count rowSingleSerial).1 = true) ↔
       (1 < serialCount rowSingleSerial ∧
        (serialCount rowSingleSerial : Rat) < flt rowSingleSerial.qty)) := by
  decide

/-- C2 amended: the fields are cleared (and, by `alert_iff_cleared`, the
notification shown) exactly when the row has a truthy `item_code`, its
quantity exceeds one, the trimmed `serial_no` text is non-empty, and the
entered-serial count is strictly below the quantity — with no lower bound
of one on the count. -/
theorem clear_iff_guards (item : Item) :
    (fix_serial_number_count item).1 = true ↔
      (truthy item.item_code = true ∧ 1 < flt item.qty ∧
       jsTrim (item.serial_no.getD "") ≠ "" ∧
       (serialCount item : Rat) < flt item.qty) := by
  constructor
  · intro h
    by_cases hc : truthy item.item_code
    case neg =>
      rw [fix_eq_false_of_guard item (Or.inl (eq_false_of_ne_true hc))] at h
      simp at h
    by_cases hq : flt item.qty ≤ 1
    · rw [fix_eq_false_of_guard item (Or.inr (Or.inl hq))] at h
      simp at h
    by_cases hs : jsTrim (item.serial_no.getD "") = ""
    · rw [fix_eq_false_of_guard item (Or.inr (Or.inr (Or.inl hs)))] at h
      simp at h
    by_cases hn : flt item.qty ≤ (serialCount item : Rat)
    · rw [fix_eq_false_of_guard item (Or.inr (Or.inr (Or.inr hn)))] at h
      simp at h
    exact ⟨hc, not_le.mp hq, hs, not_le.mp hn⟩
  · rintro ⟨hc, hq, hs, hn⟩
    rw [fix_eq_of_mismatch item hc hq hs hn]

/-- A row with a single entered serial but quantity five (C3's scenario,
Test 3 of the test plan). -/
def rowTestThree : Item :=
  ⟨"Delivery Note Item", "row-6", some "ITEM-002", some 5, some "SN-001", none⟩

/-- C3: a row with an item code, quantity strictly above one and exactly
one entered serial number is handled: both serial fields are cleared and
the info alert is shown. -/
theorem single_serial_triggers_clear (item : Item)
    (hcode : truthy item.item_code = true)
    (hqty : 1 < flt item.qty)
    (hone : serialCount item = 1) :
    fix_serial_number_count item =
      (true,
        [ Effect.setValue item.doctype item.name "serial_no" "",
          Effect.setValue item.doctype item.name "serial_and_batch_bundle" "",
          Effect.showAlert (item.item_code.getD "") (flt item.qty) ]) := by
  have hser : jsTrim (item.serial_no.getD "") ≠ "" := by
    intro h
    have hzero : serialCount item = 0 := by
      unfold serialCount
      rw [h]
      rfl
    omega
  have hcount : (serialCount item : Rat) < flt item.qty := by
    rw [hone]
    simpa using hqty
  exact fix_eq_of_mismatch item hcode hqty hser hcount

theorem single_serial_triggers_clear_witness :
    truthy rowTestThree.item_code = true ∧ 1 < flt rowTestThree.qty ∧
    serialCount rowTestThree = 1 ∧
    fix_serial_number_count rowTestThree =
      (true,
        [ Effect.setValue "Delivery Note Item" "row-6" "serial_no" "",
          Effect.setValue "Delivery Note Item" "row-6" "serial_and_batch_bundle" "",
          Effect.showAlert "ITEM-002" 5 ]) :=
  ⟨by decide, by decide, by decide,
    single_serial_triggers_clear rowTestThree (by decide) (by decide) (by decide)⟩

/-- Does an effect show an alert? -/
def isAlert : Effect → Bool
  | .showAlert _ _ => true
  | .setValue _ _ _ _ => false

/-- C4: the alert is shown exactly on the runs that return `true`, and a
run that returns `false` performs no effect at all (no write, no alert). -/
theorem alert_iff_cleared (item : Item) :
    ((fix_serial_number_count item).2.any isAlert) = (fix_serial_number_count item).1 ∧
    ((fix_serial_number_count item).1 = false ↔ (fix_serial_number_count item).2 = []) := by
  by_cases hc : truthy item.item_code
  case neg =>
    rw [fix_eq_false_of_guard item (Or.inl (eq_false_of_ne_true hc))]
    simp [isAlert]
  by_cases hq : flt item.qty ≤ 1
  · rw [fix_eq_false_of_guard item (Or.inr (Or.inl hq))]
    simp [isAlert]
  by_cases hs : jsTrim (item.serial_no.getD "") = ""
  · rw [fix_eq_false_of_guard item (Or.inr (Or.inr (Or.inl hs)))]
    simp [isAlert]
  by_cases hn : flt item.qty ≤ (serialCount item : Rat)
  · rw [fix_eq_false_of_guard item (Or.inr (Or.inr (Or.inr hn)))]
    simp [isAlert]
  · rw [fix_eq_of_mismatch item hc (not_le.mp hq) hs (not_le.mp hn)]
    simp [isAlert, clearEffects]

/-- Does the effect stay inside the frame the spec allows: a write must
target `serial_no` or `serial_and_batch_bundle` and write the empty
string; alerts are always allowed. -/
def onlyClearsSerialFields : Effect → Bool
  | .setValue _ _ f v => (f == "serial_no" || f == "serial_and_batch_bundle") && (v == "")
  | .showAlert _ _ => true

lemma fix_effects_ok (item : Item) :
    ((fix_serial_number_count item).2).all onlyClearsSerialFields = true := by
  by_cases hc : truthy item.item_code
  case neg =>
    rw [fix_eq_false_of_guard item (Or.inl (eq_false_of_ne_true hc))]
    rfl
  by_cases hq : flt item.qty ≤ 1
  · rw [fix_eq_false_of_guard item (Or.inr (Or.inl hq))]
    rfl
  by_cases hs : jsTrim (item.serial_no.getD "") = ""
  · rw [fix_eq_false_of_guard item (Or.inr (Or.inr (Or.inl hs)))]
    rfl
  by_cases hn : flt item.qty ≤ (serialCount item : Rat)
  · rw [fix_eq_false_of_guard item (Or.inr (Or.inr (Or.inr hn)))]
    rfl
  · rw [fix_eq_of_mismatch item hc (not_le.mp hq) hs (not_le.mp hn)]
    rfl

lemma effectsList_all_ok (items : List Item) :
    ((items.map (fun item => (fix_serial_number_count item).2)).flatten).all
      onlyClearsSerialFields = true := by
  induction items with
  | nil => rfl
  | cons i is ih =>
    simp only [List.map_cons, List.flatten_cons, List.all_append, ih, Bool.and_true]
    exact fix_effects_ok i

/-- C5: over any document, every write the validate handler issues targets
`serial_no` or `serial_and_batch_bundle` and writes the empty string; no
other field is ever modified and no serial number is ever assigned by the
script. -/
theorem validate_only_clears_serial_fields (doc_items : Option (List Item)) :
    (validate doc_items).all onlyClearsSerialFields = true := by
  cases doc_items with
  | none => rfl
  | some items => exact effectsList_all_ok items

/-- A row with the serial text `A,A,A` and quantity three. -/
def rowDuplicates : Item :=
  ⟨"Delivery Note Item", "row-7", some "ITEM-003", some 3, some "A,A,A", none⟩

/-- A row whose serial text is a single comma, with quantity two. -/
def rowSeparatorOnly : Item :=
  ⟨"Delivery Note Item", "row-8", some "ITEM-004", some 2, some ",", none⟩

/-- C9: duplicates count with multiplicity (`A,A,A` counts as three
serials, so with quantity three nothing is cleared), while a field holding
just a comma trims to non-empty text yet counts zero serials and, with
quantity two, still triggers clearing. -/
theorem count_multiplicity_and_separator_only :
    serialCount rowDuplicates = 3 ∧
    fix_serial_number_count rowDuplicates = (false, []) ∧
    jsTrim (rowSeparatorOnly.serial_no.getD "") ≠ "" ∧
    serialCount rowSeparatorOnly = 0 ∧
    (fix_serial_number_count rowSeparatorOnly).1 = true := by
  decide

end SerialNumberManager
